import Mathlib

/-!
Verification development for the dual-process cognitive scheduler and the
activation-based relevance engine of the openclaw-bee repository.

The Lean definitions below are shallow embeddings of the Python sources:
  * scripts/retrieve_memories.py   (MemoryRetriever)
  * scripts/activation-scorer.py   (ActivationScorer)
  * scripts/cognitive_loop.py      (LoopOrchestrator)
  * scripts/system1_scan.py        (System1Scanner)
  * scripts/system2_think.py       (System2Deliberator)
  * scripts/post_proposal.py, scripts/update_beliefs.py (persistence routes)

Modelling conventions:
  * Python floats are modelled as real numbers (`ℝ`) where transcendental
    functions occur, and as rationals (`ℚ`) in the persistence routing where
    only clamping arithmetic occurs.
  * Python string slicing `s[:n]` and `s[n:]` operate on code points; they are
    modelled by `pySlice` / `pyDrop` on the character list of the string.
  * Timestamps are real numbers (seconds on an absolute axis); a missing or
    unparseable timestamp is `Option.none`.
  * SQLite rows are records; the per-agent `cognitive_state` row is an
    `Option CogRow` (the code only ever touches the row of the invoked agent,
    every query is keyed `WHERE agent_id = ?`).
  * The reasoning backend, the JSON decoder and the external message
    validator are nondeterministic/foreign boundaries; their outcomes are
    fields of an `Env` record that is universally quantified in theorems.
  * An unhandled exception inside the orchestrator's `try` block is modelled
    by `Env.crash`, naming the point of the raise; the `except`/`finally`
    blocks are modelled explicitly.
-/

namespace OpenclawBee

/-! ## Python string primitives (code-point semantics) -/

/-- Python slice `s[:n]` (by code points). -/
def pySlice (s : String) (n : Nat) : String := String.mk (s.data.take n)

/-- Python slice `s[n:]` (by code points). -/
def pyDrop (s : String) (n : Nat) : String := String.mk (s.data.drop n)

/-- Python `len(s)` (by code points). -/
def pyLen (s : String) : Nat := s.data.length

/-- Python substring test `pat in hay`. -/
def strContains (hay pat : String) : Bool :=
  (List.range (hay.data.length + 1)).any fun i => pat.data.isPrefixOf (hay.data.drop i)

/-- Python `s.strip(chars)`: remove leading and trailing characters drawn
from the set `cs`. -/
def pyStrip (s : String) (cs : List Char) : String :=
  String.mk (((s.data.dropWhile fun c => cs.contains c).reverse.dropWhile
      fun c => cs.contains c).reverse)

/-- Python `s.lower()` (ASCII case folding; the repository's keywords and
status strings are ASCII). -/
def pyLower (s : String) : String := String.mk (s.data.map Char.toLower)

/-- Python `s.upper()` (ASCII case folding). -/
def pyUpper (s : String) : String := String.mk (s.data.map Char.toUpper)

/-- Python `s.strip()` with no argument: remove surrounding whitespace. -/
def pyTrimWs (s : String) : String :=
  String.mk (((s.data.dropWhile Char.isWhitespace).reverse.dropWhile
      Char.isWhitespace).reverse)

/-- Python `s.startswith(pat)`. -/
def pyStartsWith (s pat : String) : Bool := pat.data.isPrefixOf s.data

/-- Python `s.split("\n")[0]`: the first line. -/
def pyFirstLine (s : String) : String :=
  String.mk (s.data.takeWhile fun c => c ≠ '\n')

/-- Accumulator loop behind `pySplitWs`. -/
def pySplitWsAux : List Char → List Char → List String
  | [], acc => if acc.isEmpty then [] else [String.mk acc.reverse]
  | c :: cs, acc =>
    if c.isWhitespace then
      if acc.isEmpty then pySplitWsAux cs []
      else String.mk acc.reverse :: pySplitWsAux cs []
    else pySplitWsAux cs (c :: acc)

/-- Python `s.split()` (no argument): split on whitespace runs, dropping
empty pieces. -/
def pySplitWs (s : String) : List String := pySplitWsAux s.data []

/-! ## MemoryRetriever — scripts/retrieve_memories.py

A memory row as read by the retriever; only the fields the scoring and the
filter block touch are kept (`r[1]` is the content column). -/

structure MemRow where
  content : String
  deriving DecidableEq

/-- The retriever's score, `act_r_score` of scripts/retrieve_memories.py
(lines 23-32).  `last_accessed = none` models both a NULL column and an
unparseable timestamp (the `except` branch): in both cases `recency`
keeps its initial value `0.5`.  Times are seconds on an absolute axis. -/
noncomputable def act_r_score (now importance decay_rate : ℝ)
    (access_count : ℕ) (last_accessed : Option ℝ) : ℝ :=
  let recency : ℝ :=
    match last_accessed with
    | none => 0.5
    | some la => Real.exp (-decay_rate * (now - la) / 86400)
  let freq : ℝ := Real.log ((max access_count 1 + 1 : ℕ) : ℝ)
  importance * recency * freq

/-- The score formula as the specification words it (spec section 4.2):
`importance × exp(−decay_rate × seconds_since_last_access ⁄ 86400) ×
ln(access_count+1)`.  Kept separate from `act_r_score` (which embeds the
source) for the refinement comparison of claim C6. -/
noncomputable def act_r_score_spec (now importance decay_rate : ℝ)
    (access_count : ℕ) (last_accessed : ℝ) : ℝ :=
  importance * Real.exp (-decay_rate * (now - last_accessed) / 86400) *
    Real.log ((access_count : ℝ) + 1)

/-- Backward-compatible single-query branch of the filter block
(scripts/retrieve_memories.py lines 42-47): tokenise the legacy `--query`
string, keep matching rows, and fall back to the unfiltered ranked list when
nothing matches. -/
def legacy_query_filter (query : String) (scored : List (ℝ × MemRow)) :
    List (ℝ × MemRow) :=
  if query ≠ "" then
    let tokens := pySplitWs (pyLower query)
    let filtered := scored.filter fun sr =>
      tokens.any fun t => strContains (pyLower sr.2.content) t
    if filtered.isEmpty then scored else filtered
  else scored

/-- The filter block of scripts/retrieve_memories.py (lines 37-47), applied
to the already-scored, already-ranked list `scored`.  `queries = some qs`
models `--queries` being passed on the command line (`args.queries is not
None`); `query` models `--query` (default `""`). -/
def retrieve_filter (queries : Option (List String)) (query : String)
    (scored : List (ℝ × MemRow)) : List (ℝ × MemRow) :=
  match queries with
  | some qs =>
    if qs.length > 0 then
      let query_terms := (qs.filter fun q => pyTrimWs q ≠ "").map pyLower
      scored.filter fun sr =>
        query_terms.any fun q => strContains (pyLower sr.2.content) q
    else
      legacy_query_filter query scored
  | none => legacy_query_filter query scored

/-- The retriever's output rows: the filter block followed by `scored[:limit]`
(line 49). -/
def retrieve_topn (queries : Option (List String)) (query : String)
    (limit : ℕ) (scored : List (ℝ × MemRow)) : List (ℝ × MemRow) :=
  (retrieve_filter queries query scored).take limit

/-! ## Shared persistent state

One `audit_log` row (append-only). -/

structure AuditEvent where
  ts : String
  agent : String
  action : String
  detail : String
  deriving DecidableEq

/-- One `cognitive_state` row (the code only ever touches the row of the
invoked agent: every query is `WHERE agent_id = ?`). -/
structure CogRow where
  scan_status : String
  last_system1_run : Option String
  last_system2_run : Option String
  system2_count_today : Nat
  system2_date : Option String
  pending_intentions : String
  last_scan_result : Option String
  created_at : String
  updated_at : String
  deriving DecidableEq

/-- A record written by the System-2 persistence routes: a `proposals` row,
a provisional `beliefs` row, or a `knowledge_gaps` row.  Generated uuid
columns are not modelled. -/
inductive Persisted where
  | proposal (author title content : String) (evidence : List String)
      (requires_review : Bool)
  | belief (agent content category : String) (confidence importance : ℚ)
      (action_implication evidence_for evidence_against : String)
  | gap (agent domain description : String) (importance : ℚ)
  deriving DecidableEq

/-- The shared store, restricted to what the scheduler reads and writes. -/
structure DB where
  cog : Option CogRow
  audit : List AuditEvent
  security_audit : List AuditEvent
  persisted : List Persisted
  deriving DecidableEq

/-- Outcome of the external `validate_message` collaborator
(spec section 1 places the multi-tier validator out of scope). -/
structure ValidationResult where
  blocked : Bool
  requires_review : Bool
  violations : List String
  log : List String
  deriving DecidableEq

/-- The `belief` sub-object of a System-2 `belief_update` action, as decoded
from JSON (absent keys are `none`; numeric values are rationals). -/
structure BeliefJson where
  content : Option String
  category : Option String
  confidence : Option ℚ
  importance : Option ℚ
  action_implication : Option String
  evidence_for : Option String
  evidence_against : Option String
  deriving DecidableEq

/-- The empty JSON object `action_json.get("belief", \x7b\x7d)`. -/
def BeliefJson.empty : BeliefJson := ⟨none, none, none, none, none, none, none⟩

/-- A decoded System-2 action object.  `evidence` is the value after the
`isinstance(evidence, list)` coercion of scripts/system2_think.py line 288. -/
structure ActionJson where
  type : String
  title : Option String
  content : Option String
  evidence : List String
  belief : Option BeliefJson
  domain : Option String
  description : Option String
  importance : Option ℚ
  deriving DecidableEq

/-- Outcome of one reasoning-backend call (`_call_ai`): the returned text, or
any raised failure (timeout, non-zero exit, malformed JSON envelope, empty
payload — all become a `RuntimeError` in the source). -/
inductive BackendResult where
  | ok (text : String)
  | failure (err : String)
  deriving DecidableEq

/-- Point inside the orchestrator's `try` block at which an unhandled
exception is raised, if any. -/
inductive CrashSite where
  | duringS1
  | afterS1
  | afterS2
  deriving DecidableEq

/-- The environment of one invocation: clock, WAL state, backend outcomes,
the JSON decoder (`json.loads` after fence stripping) and the external
validator, and the optional unhandled exception. -/
structure Env where
  now : String
  today : String
  walExists : Bool
  walSizeMb : ℚ
  s1Backend : BackendResult
  s2Backend : BackendResult
  s2Parse : String → Option ActionJson
  validate : String → ValidationResult
  crash : Option CrashSite
  crashMsg : String

/-- `_log_audit`: append one `audit_log` row (the store is modelled as
reliable, so the `except` branch of `_log_audit` is never taken). -/
def logAudit (env : Env) (agent action detail : String) (db : DB) : DB :=
  { db with audit := db.audit ++ [⟨env.now, agent, action, detail⟩] }

/-- `UPDATE cognitive_state ... WHERE agent_id = ?`: a no-op when the row is
absent. -/
def updateCog (db : DB) (f : CogRow → CogRow) : DB :=
  { db with cog := db.cog.map f }

/-- The row inserted by `_get_or_create_cognitive_state` (both copies,
scripts/cognitive_loop.py lines 115-126 and scripts/system1_scan.py
lines 133-144). -/
def freshCogRow (env : Env) : CogRow :=
  { scan_status := "idle", last_system1_run := none, last_system2_run := none,
    system2_count_today := 0, system2_date := none, pending_intentions := "[]",
    last_scan_result := none, created_at := env.now, updated_at := env.now }

/-- `_get_or_create_cognitive_state`: idempotent lazy init. -/
def get_or_create_cognitive_state (env : Env) (db : DB) : CogRow × DB :=
  match db.cog with
  | some row => (row, db)
  | none => (freshCogRow env, { db with cog := some (freshCogRow env) })

/-- `_set_scan_status` of scripts/cognitive_loop.py (lines 136-144). -/
def set_scan_status (env : Env) (status : String) (db : DB) : DB :=
  updateCog db fun st => { st with scan_status := status, updated_at := env.now }

/-- `_check_wal_size` of scripts/cognitive_loop.py (lines 95-105):
`(exceeds_limit, size_mb)` with the 50 MB limit. -/
def check_wal_size (env : Env) : Bool × ℚ :=
  if !env.walExists then (false, 0) else (env.walSizeMb > 50, env.walSizeMb)

/-! ## System1Scanner — scripts/system1_scan.py -/

/-- `_parse_yes_no` (lines 307-317): first-line token decides escalation, the
reason is `text[3:].strip(" :.-")` when the text is longer than 3 characters. -/
def parse_yes_no (response_text : String) : Bool × String :=
  let text := pyTrimWs response_text
  let first_line := pyUpper (pyFirstLine text)
  let escalate := pyStartsWith first_line "YES"
  let reason :=
    if pyLen text > 3 then pyStrip (pyDrop text 3) [' ', ':', '.', '-'] else text
  (escalate, reason)

structure S1Result where
  escalated : Bool
  reason : String
  cap_blocked : Bool
  status : String
  deriving DecidableEq

/-- The common tail of `run_system1_scan` (lines 411-434): update the state
row, append one audit event, return. -/
def s1_finish (env : Env) (agent_id : String) (escalate : Bool)
    (reason : String) (db : DB) : S1Result × DB :=
  let new_status := if escalate then "escalated" else "idle"
  let db := updateCog db fun st =>
    { st with scan_status := new_status,
              last_scan_result := some (pySlice reason 500),
              last_system1_run := some env.now, updated_at := env.now }
  let db := logAudit env agent_id "system1_scan"
    ((if escalate then "result=ESCALATED reason=" else "result=idle reason=")
      ++ pySlice reason 200) db
  (⟨escalate, reason, false, new_status⟩, db)

/-- The backend-call stage of `run_system1_scan` (lines 352-371): mock text,
backend text, or the safe fallback text plus one error audit event. -/
def s1_scan_text (env : Env) (agent_id : String) (mock_response : Option String)
    (db : DB) : String × DB :=
  match mock_response with
  | some m => (pyUpper m ++ ": mock response for testing", db)
  | none =>
    match env.s1Backend with
    | .ok t => (t, db)
    | .failure e =>
      ("NO: API call failed, safe fallback to idle",
       logAudit env agent_id "system1_scan_error" ("AI call failed: " ++ e) db)

/-- The decision stage of `run_system1_scan` (lines 376-434): the daily-cap
re-check on escalation, then the state update and audit append. -/
def s1_decide (env : Env) (agent_id : String) (escalate : Bool)
    (reason : String) (db : DB) : S1Result × DB :=
  if escalate then
    let (state, db) := get_or_create_cognitive_state env db
    let count_today :=
      if state.system2_date ≠ some env.today then 0 else state.system2_count_today
    if count_today ≥ 2 then
      let db := logAudit env agent_id "system1_scan"
        ("ESCALATED but DAILY_CAP_REACHED: " ++ reason) db
      let db := updateCog db fun st =>
        { st with scan_status := "idle",
                  last_scan_result := some ("[CAP_BLOCKED] " ++ reason),
                  last_system1_run := some env.now, updated_at := env.now }
      (⟨false, "[DAILY_CAP_REACHED] " ++ reason, true, "idle"⟩, db)
    else
      s1_finish env agent_id escalate reason db
  else
    s1_finish env agent_id escalate reason db

/-- `run_system1_scan` (lines 320-434).  The bounded context block
(`_build_context_block`) only reads and is not modelled; the backend call is
`env.s1Backend` unless `mock_response` short-circuits it. -/
def run_system1_scan (env : Env) (agent_id : String)
    (mock_response : Option String) (db : DB) : S1Result × DB :=
  let (_, db) := get_or_create_cognitive_state env db
  let (scan_result_text, db) := s1_scan_text env agent_id mock_response db
  let (escalate, reason) := parse_yes_no scan_result_text
  s1_decide env agent_id escalate reason db

/-! ## System2Deliberator — scripts/system2_think.py and its persistence
routes (scripts/post_proposal.py, scripts/update_beliefs.py) -/

def PROTECTED_AGENT_IDS : List String := ["vector", "__shared__"]

structure ProposalResult where
  id : String
  blocked : Bool
  requires_review : Bool
  message : String
  deriving DecidableEq

/-- `post_proposal` of scripts/post_proposal.py (lines 34-156): namespace and
length guards, external validation, then the INSERT.  The generated uuid is
the placeholder `"proposal-uuid"`. -/
def post_proposal (env : Env) (agent title content : String)
    (evidence : List String) (db : DB) : ProposalResult × DB :=
  if PROTECTED_AGENT_IDS.contains (pyLower agent) then
    (⟨"", true, false, "ERROR: protected namespace"⟩, db)
  else if pyLen content > 2000 then
    (⟨"", true, false, "ERROR: content exceeds maximum length"⟩, db)
  else if pyLen title > 200 then
    (⟨"", true, false, "ERROR: title exceeds maximum length"⟩, db)
  else
    let validation := env.validate (title ++ "\n\n" ++ content)
    if validation.blocked then
      let db := { db with security_audit := db.security_audit ++
        [⟨env.now, agent, "TIER1_PROPOSAL_BLOCK", "PROPOSAL_REJECTED_NOT_STORED"⟩] }
      (⟨"", true, false, "Proposal BLOCKED by validator"⟩, db)
    else
      let requires_review := validation.requires_review || evidence.isEmpty
      let db := { db with persisted := db.persisted ++
        [.proposal agent title content evidence requires_review] }
      (⟨"proposal-uuid", false, requires_review, "Proposal posted successfully"⟩, db)

/-- `max(lo, min(hi, x))` as written in scripts/update_beliefs.py. -/
def clampQ (lo hi x : ℚ) : ℚ := max lo (min hi x)

def belief_categories : List String :=
  ["identity", "goal", "preference", "decision", "fact"]

/-- One iteration of the `belief_updates` loop of scripts/update_beliefs.py
(lines 25-49): skip when the stripped content is empty, shorter than 10 or
longer than 500 characters; otherwise insert one provisional belief row. -/
def store_belief_update (agent_id : String) (b : BeliefJson) (db : DB) : DB :=
  let content := pyTrimWs (b.content.getD "")
  if content = "" ∨ pyLen content < 10 ∨ pyLen content > 500 then db
  else
    let category0 := b.category.getD "fact"
    let category := if belief_categories.contains category0 then category0 else "fact"
    let confidence := clampQ (1/2) 1 (b.confidence.getD (65/100))
    let importance := clampQ 1 10 (b.importance.getD 5)
    let action_impl := pySlice (b.action_implication.getD "") 500
    let evidence_for := pySlice (b.evidence_for.getD "") 500
    let evidence_against := pySlice (b.evidence_against.getD "") 500
    { db with persisted := db.persisted ++
      [.belief agent_id content category confidence importance action_impl
        evidence_for evidence_against] }

/-- `update_beliefs` of scripts/update_beliefs.py as invoked from
`_route_output`: the payload is `belief_updates = [belief]` with no
`memory_operations` and no `knowledge_gaps`, so only the belief loop and the
final audit append are reachable. -/
def update_beliefs (env : Env) (agent_id : String)
    (belief_updates : List BeliefJson) (db : DB) : DB :=
  let db := belief_updates.foldl (fun d b => store_belief_update agent_id b d) db
  logAudit env agent_id "belief_update" "stored" db

structure RouteResult where
  routed : Bool
  type : String
  detail : String
  deriving DecidableEq

/-- `_route_output` of scripts/system2_think.py (lines 275-338).  Note the
truncations applied before persistence: proposal title `[:200]` and content
`[:2000]`, gap domain `[:50]` and description `[:500]`. -/
def route_output (env : Env) (agent_id : String) (a : ActionJson) (db : DB) :
    RouteResult × DB :=
  let action_type := pyLower a.type
  if action_type = "proposal" then
    let title := pySlice (a.title.getD "System 2 proposal") 200
    let content := pySlice (a.content.getD "") 2000
    let (res, db) := post_proposal env agent_id title content a.evidence db
    (⟨!res.blocked, "proposal", "proposal_id=" ++ res.id⟩, db)
  else if action_type = "belief_update" then
    let db := update_beliefs env agent_id [a.belief.getD BeliefJson.empty] db
    (⟨true, "belief_update", "belief queued for review"⟩, db)
  else if action_type = "knowledge_gap" then
    let db := { db with persisted := db.persisted ++
      [.gap agent_id (pySlice (a.domain.getD "") 50)
        (pySlice (a.description.getD "") 500) (a.importance.getD 5)] }
    (⟨true, "knowledge_gap", "gap stored"⟩, db)
  else
    (⟨false, "unknown", "unknown action type: " ++ action_type⟩, db)

/-- `_check_daily_cap` of scripts/system2_think.py (lines 75-102): on a date
change the reset is persisted; returns `(cap_hit, count_today)`. -/
def check_daily_cap (env : Env) (db : DB) : Bool × ℕ × DB :=
  match db.cog with
  | none => (false, 0, db)
  | some state =>
    if state.system2_date ≠ some env.today then
      (false, 0, updateCog db fun st =>
        { st with system2_count_today := 0, system2_date := some env.today,
                  updated_at := env.now })
    else
      (state.system2_count_today ≥ 2, state.system2_count_today, db)

structure S2Result where
  success : Bool
  reason : String
  action_type : Option String
  routed : Bool
  cap_hit : Bool
  error : Option String
  deriving DecidableEq

/-- The fallback knowledge-gap object built when the backend output is not
valid JSON (scripts/system2_think.py lines 448-455). -/
def fallback_gap (raw_output : String) : ActionJson :=
  { type := "knowledge_gap", title := none, content := none, evidence := [],
    belief := none, domain := some "system2_parse_error",
    description := some ("System 2 output could not be parsed: " ++
      pySlice raw_output 100),
    importance := some 3 }

/-- Steps 5-8 of `run_system2_think` (lines 437-491): decode, route,
increment the daily counter, stamp the date and timestamps, reset
`scan_status` to idle, append one audit event. -/
def s2_after_backend (env : Env) (agent_id reason raw_output : String)
    (db : DB) : S2Result × DB :=
  let (action_json, parse_error) :=
    match env.s2Parse raw_output with
    | some a => (a, (none : Option String))
    | none => (fallback_gap raw_output, some "JSON_PARSE_ERROR")
  let (route_result, db) := route_output env agent_id action_json db
  let db := updateCog db fun st =>
    { st with system2_count_today := st.system2_count_today + 1,
              system2_date := some env.today, last_system2_run := some env.now,
              scan_status := "idle", updated_at := env.now }
  let db := logAudit env agent_id "system2_think"
    ("action_type=" ++ action_json.type) db
  (⟨true, reason, some action_json.type, route_result.routed, false, parse_error⟩, db)

/-- `run_system2_think` (lines 341-491): cap check first, then the backend
call (or mock), then decode-route-increment.  On a backend-call failure the
status is reset to idle and the counter is left untouched. -/
def run_system2_think (env : Env) (agent_id reason : String)
    (mock_output : Option String) (db : DB) : S2Result × DB :=
  let (cap_hit, _count, db) := check_daily_cap env db
  if cap_hit then
    (⟨false, reason, none, false, true, some "DAILY_CAP_REACHED"⟩,
     logAudit env agent_id "system2_think" "DAILY_CAP_REACHED" db)
  else
    match mock_output with
    | some m => s2_after_backend env agent_id reason m db
    | none =>
      match env.s2Backend with
      | .ok t => s2_after_backend env agent_id reason t db
      | .failure e =>
        let db := logAudit env agent_id "system2_think_error"
          ("API call failed: " ++ e) db
        let db := updateCog db fun st =>
          { st with scan_status := "idle", updated_at := env.now }
        (⟨false, reason, none, false, false, some ("API_CALL_FAILED: " ++ e)⟩, db)

/-! ## LoopOrchestrator — scripts/cognitive_loop.py -/

structure LoopResult where
  completed : Bool
  exit_reason : String
  system1_escalated : Bool
  system2_ran : Bool
  deriving DecidableEq

/-- Result of one orchestrator invocation, instrumented with whether
`run_system2_think` was entered at all (`s2Invoked`). -/
structure LoopOut where
  result : LoopResult
  db : DB
  s2Invoked : Bool

/-- `_get_system2_cap_status` of scripts/cognitive_loop.py (lines 147-171):
read-only double check; a NULL date reads as `""`. -/
def get_system2_cap_status (env : Env) (db : DB) : Bool × ℕ :=
  match db.cog with
  | none => (false, 0)
  | some row =>
    let count := row.system2_count_today
    let state_date := row.system2_date.getD ""
    if state_date ≠ env.today then (false, 0) else (count ≥ 2, count)

/-- The unconditional `finally` block (lines 327-338): if the row is still
`running`, reset it to idle. -/
def finally_fix (env : Env) (db : DB) : DB :=
  match db.cog with
  | some row =>
    if row.scan_status = "running" then set_scan_status env "idle" db else db
  | none => db

/-- The `except` handler (lines 311-325): status forced to `error`, one
audit event, an `error: <msg>` exit reason. -/
def crash_exit (env : Env) (agent_id : String) (db : DB) (s2inv : Bool) :
    LoopOut :=
  let db := set_scan_status env "error" db
  let db := logAudit env agent_id "cognitive_loop_error"
    ("Unhandled exception: " ++ pySlice env.crashMsg 200) db
  ⟨⟨false, "error: " ++ env.crashMsg, false, false⟩, db, s2inv⟩

/-- The canned mock System-2 output injected in mock mode (line 273). -/
def loop_mock_s2_output : String :=
  "\x7b\"type\": \"knowledge_gap\", \"domain\": \"mock\", \"description\": \"Mock System 2 output for test\", \"importance\": 3.0\x7d"

/-- The `try` block of `run_cognitive_loop` (lines 241-325), without the
`finally`.  `Env.crash` names the point at which an unhandled exception is
raised, if any. -/
def loop_try (env : Env) (agent_id : String) (mock_s1 : Option String)
    (db : DB) : LoopOut :=
  if env.crash = some .duringS1 then crash_exit env agent_id db false
  else
    let (s1_result, db) := run_system1_scan env agent_id mock_s1 db
    if env.crash = some .afterS1 then crash_exit env agent_id db false
    else
      let escalated := s1_result.escalated
      let cap_blocked := s1_result.cap_blocked
      let s1_reason := s1_result.reason
      let (system2_ran, s2inv, db) :=
        if escalated && !cap_blocked then
          let (cap_hit, _count) := get_system2_cap_status env db
          if cap_hit then
            (false, false, logAudit env agent_id "cognitive_loop"
              ("System 1 escalated but System 2 cap hit: " ++ pySlice s1_reason 100) db)
          else
            let mock_s2 := if mock_s1.isSome then some loop_mock_s2_output else none
            let (s2_result, db) := run_system2_think env agent_id s1_reason mock_s2 db
            (s2_result.success, true, db)
        else (false, false, db)
      if env.crash = some .afterS2 then crash_exit env agent_id db s2inv
      else
        let db := if escalated && !system2_ran then set_scan_status env "idle" db else db
        let db := logAudit env agent_id "cognitive_loop" "complete" db
        let exit_reason :=
          if escalated && system2_ran then "system1_escalated_ran_s2"
          else if escalated && !system2_ran then "system1_escalated_cap"
          else "system1_idle"
        ⟨⟨true, exit_reason, escalated, system2_ran⟩, db, s2inv⟩

/-- `run_cognitive_loop` (lines 174-338).  The permissions hygiene step
(`_ensure_db_permissions`) touches only file modes and is the identity on the
modelled store.  The `finally` block applies to every exit of the `try`,
including the `except` handler's. -/
def run_cognitive_loop (env : Env) (agent_id : String)
    (mock_s1 : Option String) (db : DB) : LoopOut :=
  let (wal_too_large, _wal_mb) := check_wal_size env
  if wal_too_large then
    let db := logAudit env agent_id "cognitive_loop_wal_alert"
      "WAL file too large; cognitive loop HALTED" db
    ⟨⟨false, "wal_too_large", false, false⟩, db, false⟩
  else
    let (state, db) := get_or_create_cognitive_state env db
    if state.scan_status = "running" then
      let db := logAudit env agent_id "cognitive_loop_double_fire"
        ("Prevented double-fire for agent " ++ agent_id) db
      ⟨⟨false, "already_running", false, false⟩, db, false⟩
    else
      let db := set_scan_status env "running" db
      let out := loop_try env agent_id mock_s1 db
      ⟨out.result, finally_fix env out.db, out.s2Invoked⟩

/-! ## ActivationScorer — scripts/activation-scorer.py

Timestamps are real numbers on an absolute axis measured in seconds; `none`
models a NULL column or a string `parse_dt` rejects (it returns `None`). -/

/-- `safe_hours_since` of scripts/activation-scorer.py (lines 23-27) for a
present timestamp: elapsed hours until `now`, floored at one second. -/
noncomputable def safe_hours_since (now t : ℝ) : ℝ :=
  max ((now - t) / 3600) (1 / 3600)

/-- `access_times` of scripts/activation-scorer.py (lines 30-45): the
synthetic access-time history.  `access_count` is the raw integer column
(`int(access_count or 0)` in the caller is folded into the `Option`). -/
noncomputable def access_times (now : ℝ) (created_at last_accessed : Option ℝ)
    (access_count : ℤ) : List ℝ :=
  let created := created_at.getD now
  let last := last_accessed.getD created
  let n := access_count
  if n ≤ 0 then [created]
  else if n = 1 then [last]
  else if last - created ≤ 0 then List.replicate n.toNat last
  else (List.range n.toNat).map fun i : ℕ =>
    created + (last - created) * ((i : ℝ) / ((n : ℝ) - 1))

/-- The decay-rate clamp of `compute_activation` (lines 49-50):
`min(max(d, 0.01), 2.0)` with default `0.5` for a NULL column. -/
noncomputable def clamp_decay (decay_rate : Option ℝ) : ℝ :=
  min (max (decay_rate.getD 0.5) 0.01) 2

/-- The power-law sum and base-level term of `compute_activation`
(lines 53-58): `ln(max(Σ h_i^(−d), 1e-12))`. -/
noncomputable def base_level_of (now : ℝ) (times : List ℝ) (d : ℝ) : ℝ :=
  Real.log (max ((times.map fun t => safe_hours_since now t ^ (-d)).sum) (1e-12))

/-- `compute_activation` of scripts/activation-scorer.py (lines 48-62).
`random.gauss(0, 0.1)` is a fresh draw per scored item; the draw is the
explicit argument `noise`. -/
noncomputable def compute_activation (now : ℝ)
    (created_at last_accessed : Option ℝ) (access_count : ℤ)
    (decay_rate importance confidence : Option ℝ) (noise : ℝ) : ℝ :=
  base_level_of now (access_times now created_at last_accessed access_count)
      (clamp_decay decay_rate)
    + (importance.getD 0.5) * 2 + ((confidence.getD 0.5) - 0.5) * 0.5 + noise

/-! ## Helper lemmas for the activation-score claims -/

lemma exp137_lt_pow : Real.exp (137 : ℝ) < (240 : ℝ) ^ (25 : ℕ) := by
  calc Real.exp (137 : ℝ) = Real.exp 1 ^ (137 : ℕ) := by
        rw [← Real.exp_nat_mul]; norm_num
  _ < (2.7182818286 : ℝ) ^ (137 : ℕ) :=
        pow_lt_pow_left₀ Real.exp_one_lt_d9 (Real.exp_pos 1).le (by norm_num)
  _ < (240 : ℝ) ^ (25 : ℕ) := by norm_num

lemma pow_lt_exp138 : (240 : ℝ) ^ (25 : ℕ) < Real.exp (138 : ℝ) := by
  calc (240 : ℝ) ^ (25 : ℕ) < (2.7182818283 : ℝ) ^ (138 : ℕ) := by norm_num
  _ < Real.exp 1 ^ (138 : ℕ) :=
        pow_lt_pow_left₀ Real.exp_one_gt_d9 (by norm_num) (by norm_num)
  _ = Real.exp (138 : ℝ) := by rw [← Real.exp_nat_mul]; norm_num

lemma log240_gt : (137 : ℝ) / 25 < Real.log 240 := by
  rw [Real.lt_log_iff_exp_lt (by norm_num : (0 : ℝ) < 240)]
  have h : Real.exp ((137 : ℝ) / 25) ^ (25 : ℕ) < (240 : ℝ) ^ (25 : ℕ) := by
    rw [← Real.exp_nat_mul]
    calc Real.exp ((25 : ℕ) * ((137 : ℝ) / 25)) = Real.exp (137 : ℝ) := by norm_num
    _ < (240 : ℝ) ^ (25 : ℕ) := exp137_lt_pow
  exact lt_of_pow_lt_pow_left₀ 25 (by norm_num) h

lemma log240_lt : Real.log 240 < (138 : ℝ) / 25 := by
  rw [Real.log_lt_iff_lt_exp (by norm_num : (0 : ℝ) < 240)]
  have h : (240 : ℝ) ^ (25 : ℕ) < Real.exp ((138 : ℝ) / 25) ^ (25 : ℕ) := by
    rw [← Real.exp_nat_mul]
    calc (240 : ℝ) ^ (25 : ℕ) < Real.exp (138 : ℝ) := pow_lt_exp138
    _ = Real.exp ((25 : ℕ) * ((138 : ℝ) / 25)) := by norm_num
  exact lt_of_pow_lt_pow_left₀ 25 (Real.exp_pos _).le h

/-! ## Theorems -/

/-- C5: the retriever's two filtering modes are asymmetric.  If a non-empty
keyword list is supplied and no stored item's content substring-matches
(case-insensitively) any keyword, the result is empty with no fallback; if
instead a single legacy keyword string is supplied and no item matches any of
its tokens, the result falls back to the unfiltered ranked top-N. -/
theorem C5_filter_asymmetry
    (scored : List (ℝ × MemRow)) (qs : List String) (query : String)
    (limit : ℕ) :
    (qs ≠ [] →
      (∀ p ∈ scored, ∀ q ∈ qs, pyTrimWs q ≠ "" →
        strContains (pyLower p.2.content) (pyLower q) = false) →
      retrieve_topn (some qs) query limit scored = [])
    ∧
    (query ≠ "" →
      (∀ p ∈ scored, ∀ t ∈ pySplitWs (pyLower query),
        strContains (pyLower p.2.content) t = false) →
      retrieve_topn none query limit scored = scored.take limit) := by
  constructor
  · intro hne hnomatch
    have hlen : qs.length > 0 := List.length_pos.mpr hne
    have hfilter :
        scored.filter (fun sr =>
          ((qs.filter fun q => pyTrimWs q ≠ "").map pyLower).any
            fun q => strContains (pyLower sr.2.content) q) = [] := by
      rw [List.filter_eq_nil_iff]
      intro p hp
      simp only [List.any_eq_true, List.mem_map, List.mem_filter,
        decide_eq_true_eq, not_exists, not_and, Bool.not_eq_true]
      rintro q ⟨q0, ⟨hq0, hq0ne⟩, rfl⟩
      exact hnomatch p hp q0 hq0 hq0ne
    simp only [retrieve_topn, retrieve_filter, hlen, if_pos, hfilter,
      List.take_nil]
  · intro hq hnomatch
    have hfilter :
        scored.filter (fun sr =>
          (pySplitWs (pyLower query)).any
            fun t => strContains (pyLower sr.2.content) t) = [] := by
      rw [List.filter_eq_nil_iff]
      intro p hp
      simp only [List.any_eq_true, not_exists, not_and, Bool.not_eq_true]
      intro t ht
      exact hnomatch p hp t ht
    simp only [retrieve_topn, retrieve_filter, legacy_query_filter, hq,
      if_pos, ne_eq, not_false_iff, hfilter, List.isEmpty_nil, if_true]

/-- Witness for C5 at a concrete store and concrete queries. -/
theorem C5_filter_asymmetry_witness :
    (retrieve_topn (some ["zzz"]) "" 5 [(1, ⟨"hello world"⟩)] = []) ∧
    (retrieve_topn none "yyy" 5 [(1, ⟨"hello world"⟩)] =
      List.take 5 [(1, ⟨"hello world"⟩)]) := by
  have h := C5_filter_asymmetry [(1, ⟨"hello world"⟩)] ["zzz"] "yyy" 5
  refine ⟨h.1 (by decide) ?_, h.2 (by decide) ?_⟩
  · intro p hp q hq hqne
    have hp' : p = (1, ⟨"hello world"⟩) := by simpa using hp
    have hq' : q = "zzz" := by simpa using hq
    subst hp'; subst hq'
    decide
  · intro p hp t ht
    have hp' : p = (1, ⟨"hello world"⟩) := by simpa using hp
    subst hp'
    have hsplit : pySplitWs (pyLower "yyy") = ["yyy"] := by decide
    rw [hsplit] at ht
    have ht' : t = "yyy" := by simpa using ht
    subst ht'
    decide

/-- C10: a keyword list whose entries are all empty or whitespace-only
normalises to an empty term list, the any-match filter then removes every
item, and no fallback occurs: the result is always empty. -/
theorem C10_whitespace_keyword_list_empty_result
    (scored : List (ℝ × MemRow)) (query : String) (limit : ℕ)
    (qs : List String) (hne : qs ≠ []) (hws : ∀ q ∈ qs, pyTrimWs q = "") :
    retrieve_topn (some qs) query limit scored = [] := by
  have hlen : qs.length > 0 := List.length_pos.mpr hne
  have hterms : qs.filter (fun q => pyTrimWs q ≠ "") = [] := by
    rw [List.filter_eq_nil_iff]
    intro q hq
    simp [hws q hq]
  have hfilter :
      scored.filter (fun sr =>
        ((qs.filter fun q => pyTrimWs q ≠ "").map pyLower).any
          fun q => strContains (pyLower sr.2.content) q) = [] := by
    rw [List.filter_eq_nil_iff]
    intro p hp
    simp only [List.any_eq_true, List.mem_map, List.mem_filter,
      decide_eq_true_eq, not_exists, not_and, Bool.not_eq_true]
    rintro q ⟨q0, ⟨hq0, hq0ne⟩, rfl⟩
    exact absurd (hws q0 hq0) hq0ne
  simp only [retrieve_topn, retrieve_filter, hlen, if_pos, hfilter,
    List.take_nil]

/-- Witness for C10: two whitespace-only keywords against a non-empty store. -/
theorem C10_whitespace_keyword_list_empty_result_witness :
    ((["", " "] : List String) ≠ [] ∧ (∀ q ∈ ["", " "], pyTrimWs q = "")) ∧
    retrieve_topn (some ["", " "]) "" 3 [(1, ⟨"anything at all"⟩)] = [] :=
  ⟨⟨by decide, by decide⟩,
    C10_whitespace_keyword_list_empty_result [(1, ⟨"anything at all"⟩)] "" 3
      ["", " "] (by decide) (by decide)⟩

/-- C6 counterexample: the claim says the score is
`importance × exp(−decay_rate × Δs/86400) × ln(access_count+1)` and in
particular `0` when `access_count = 0`.  The source computes
`ln(max(access_count,1)+1)`, so at `access_count = 0` (importance 1,
decay 1, last access at `now`) the score is `ln 2 ≠ 0`, while the spec
formula gives `0`. -/
theorem C6_counterexample :
    act_r_score 0 1 1 0 (some 0) = Real.log 2 ∧ Real.log 2 ≠ 0 ∧
    act_r_score_spec 0 1 1 0 0 = 0 := by
  refine ⟨?_, ne_of_gt (Real.log_pos one_lt_two), ?_⟩
  · show (1 : ℝ) * Real.exp (-1 * ((0 : ℝ) - 0) / 86400) *
        Real.log ((max 0 1 + 1 : ℕ) : ℝ) = Real.log 2
    norm_num
  · show (1 : ℝ) * Real.exp (-1 * ((0 : ℝ) - 0) / 86400) *
        Real.log ((0 : ℕ) + 1) = 0
    norm_num

/-- C6 amended: the retriever's score is
`importance × exp(−decay_rate × Δs/86400) × ln(max(access_count,1)+1)`; it
agrees with the spec's formula whenever `access_count ≥ 1`, and at
`access_count = 0` it equals the `access_count = 1` value
(`importance × recency × ln 2`), not `0`. -/
theorem C6_amended_score_formula (now imp d : ℝ) (n : ℕ) (la : ℝ) :
    act_r_score now imp d n (some la)
      = imp * Real.exp (-d * (now - la) / 86400) *
          Real.log (((max n 1 : ℕ) : ℝ) + 1)
    ∧ (1 ≤ n →
        act_r_score now imp d n (some la) = act_r_score_spec now imp d n la)
    ∧ act_r_score now imp d 0 (some la)
        = imp * Real.exp (-d * (now - la) / 86400) * Real.log 2 := by
  refine ⟨?_, ?_, ?_⟩
  · show imp * Real.exp (-d * (now - la) / 86400) *
        Real.log ((max n 1 + 1 : ℕ) : ℝ) = _
    push_cast
    ring_nf
  · intro h
    show imp * Real.exp (-d * (now - la) / 86400) *
        Real.log ((max n 1 + 1 : ℕ) : ℝ) = _
    unfold act_r_score_spec
    rw [Nat.max_eq_left h]
    push_cast
    ring_nf
  · show imp * Real.exp (-d * (now - la) / 86400) *
        Real.log ((max 0 1 + 1 : ℕ) : ℝ) = _
    norm_num

/-- Witness for C6's amended statement at `access_count = 3`. -/
theorem C6_amended_score_formula_witness :
    (1 : ℕ) ≤ 3 ∧ act_r_score 0 1 1 3 (some 0) = act_r_score_spec 0 1 1 3 0 :=
  ⟨by decide, (C6_amended_score_formula 0 1 1 3 0).2.1 (by decide)⟩

/-- C9: for a memory created 240 hours (864000 seconds) before `now`, with a
single access at creation, decay_rate 0.5, importance 0.5, confidence 0.5
and the injected noise term excluded (draw 0), the base-level term of the
ActivationScorer equals `ln(240^(−1/2))`, which lies within 0.02 of −2.74,
and the total score equals `ln(240^(−1/2)) + 1`, within 0.02 of −1.74. -/
theorem C9_scenario_single_access :
    compute_activation 0 (some (-864000)) (some (-864000)) 1
        (some (1/2)) (some (1/2)) (some (1/2)) 0
      = Real.log ((240 : ℝ) ^ (-(1/2) : ℝ)) + 1
    ∧ |Real.log ((240 : ℝ) ^ (-(1/2) : ℝ)) - (-2.74)| < 0.02
    ∧ |compute_activation 0 (some (-864000)) (some (-864000)) 1
        (some (1/2)) (some (1/2)) (some (1/2)) 0 - (-1.74)| < 0.02 := by
  have h240 : (0 : ℝ) < 240 := by norm_num
  have hrpow_lb : (1e-12 : ℝ) ≤ (240 : ℝ) ^ (-(1/2) : ℝ) := by
    rw [Real.rpow_neg h240.le]
    have h1 : (240 : ℝ) ^ ((1 : ℝ)/2) ≤ 240 := by
      calc (240 : ℝ) ^ ((1 : ℝ)/2) ≤ (240 : ℝ) ^ (1 : ℝ) :=
        Real.rpow_le_rpow_of_exponent_le (by norm_num) (by norm_num)
      _ = 240 := Real.rpow_one 240
    have h2 : (0 : ℝ) < (240 : ℝ) ^ ((1 : ℝ)/2) := Real.rpow_pos_of_pos h240 _
    calc (1e-12 : ℝ) ≤ (240 : ℝ)⁻¹ := by norm_num
    _ ≤ ((240 : ℝ) ^ ((1 : ℝ)/2))⁻¹ := by
        apply inv_anti₀ h2 h1
  have haccess : access_times 0 (some (-864000)) (some (-864000)) 1 =
      [(-864000 : ℝ)] := by
    unfold access_times
    norm_num
  have hsafe : safe_hours_since 0 (-864000 : ℝ) = 240 := by
    unfold safe_hours_since
    have h : ((0 : ℝ) - (-864000)) / 3600 = 240 := by norm_num
    rw [h, max_eq_left (by norm_num : (1 : ℝ)/3600 ≤ 240)]
  have hclamp : clamp_decay (some (1/2)) = 1/2 := by
    unfold clamp_decay
    simp only [Option.getD_some]
    rw [max_eq_left (by norm_num : (0.01 : ℝ) ≤ 1/2),
      min_eq_left (by norm_num : (1 : ℝ)/2 ≤ 2)]
  have hbase : base_level_of 0 [(-864000 : ℝ)] (1/2) =
      Real.log ((240 : ℝ) ^ (-(1/2) : ℝ)) := by
    unfold base_level_of
    rw [List.map_cons, List.map_nil, hsafe, List.sum_cons, List.sum_nil,
      add_zero, max_eq_left hrpow_lb]
  have hval : compute_activation 0 (some (-864000)) (some (-864000)) 1
      (some (1/2)) (some (1/2)) (some (1/2)) 0
      = Real.log ((240 : ℝ) ^ (-(1/2) : ℝ)) + 1 := by
    unfold compute_activation
    rw [haccess, hclamp, hbase]
    simp only [Option.getD_some]
    norm_num
  have hlog : Real.log ((240 : ℝ) ^ (-(1/2) : ℝ)) = -(1/2) * Real.log 240 :=
    Real.log_rpow h240 _
  have hgt := log240_gt
  have hlt := log240_lt
  refine ⟨hval, ?_, ?_⟩
  · rw [hlog, abs_lt]
    constructor <;> linarith
  · rw [hval, hlog, abs_lt]
    constructor <;> linarith

/-! ### Monotonicity helpers for C8 -/

lemma safe_hours_since_pos (now t : ℝ) : 0 < safe_hours_since now t :=
  lt_of_lt_of_le (by norm_num) (le_max_right _ _)

lemma safe_hours_anti (now : ℝ) {t t' : ℝ} (h : t ≤ t') :
    safe_hours_since now t' ≤ safe_hours_since now t := by
  unfold safe_hours_since
  have hsub : (now - t') / 3600 ≤ (now - t) / 3600 := by linarith
  exact max_le_max hsub le_rfl

lemma rpow_neg_anti {x y d : ℝ} (hx : 0 < x) (hxy : x ≤ y) (hd : 0 ≤ d) :
    y ^ (-d) ≤ x ^ (-d) := by
  rw [Real.rpow_neg (hx.le.trans hxy), Real.rpow_neg hx.le]
  exact inv_anti₀ (Real.rpow_pos_of_pos hx d) (Real.rpow_le_rpow hx.le hxy hd)

lemma clamp_decay_pos (dr : Option ℝ) : 0 < clamp_decay dr := by
  unfold clamp_decay
  exact lt_min (lt_of_lt_of_le (by norm_num) (le_max_right _ _)) (by norm_num)

lemma forall₂_map_of_le {α : Type} (l : List α) {f g : α → ℝ}
    (h : ∀ x ∈ l, f x ≤ g x) :
    List.Forall₂ (· ≤ ·) (l.map f) (l.map g) := by
  induction l with
  | nil => simp
  | cons a t ih =>
    simp only [List.map_cons]
    exact List.Forall₂.cons (h a (by simp))
      (ih fun x hx => h x (List.mem_cons_of_mem a hx))

lemma forall₂_replicate {a b : ℝ} (h : a ≤ b) (n : ℕ) :
    List.Forall₂ (· ≤ ·) (List.replicate n a) (List.replicate n b) := by
  induction n with
  | zero => simp
  | succ k ih =>
    simp only [List.replicate_succ]
    exact List.Forall₂.cons h ih

lemma forall₂_replicate_map {n : ℕ} {a : ℝ} {f : ℕ → ℝ}
    (h : ∀ i ∈ List.range n, a ≤ f i) :
    List.Forall₂ (· ≤ ·) (List.replicate n a) ((List.range n).map f) := by
  have hrw : List.replicate n a = (List.range n).map fun _ => a := by
    rw [List.map_const', List.length_range]
  rw [hrw]
  exact forall₂_map_of_le _ h

/-- The synthetic access-time histories of two items that differ only in
`last_accessed` compare pointwise: a more recent last access gives pointwise
later (or equal) reconstructed access times. -/
lemma access_times_le (now : ℝ) (created : Option ℝ) {lastB lastA : ℝ}
    (h : lastB ≤ lastA) (n : ℤ) :
    List.Forall₂ (· ≤ ·) (access_times now created (some lastB) n)
      (access_times now created (some lastA) n) := by
  unfold access_times
  simp only [Option.getD_some]
  set c := created.getD now with hc
  by_cases h0 : n ≤ 0
  · simp [h0]
  · simp only [h0, if_false]
    by_cases h1 : n = 1
    · simp [h1, h]
    · simp only [h1, if_false]
      have hn2 : 2 ≤ n := by omega
      have hn1R : (1 : ℝ) ≤ (n : ℝ) - 1 := by
        have : (2 : ℝ) ≤ (n : ℝ) := by exact_mod_cast hn2
        linarith
      by_cases hB : lastB - c ≤ 0
      · simp only [hB, if_true]
        by_cases hA : lastA - c ≤ 0
        · simp only [hA, if_true]
          exact forall₂_replicate h _
        · simp only [hA, if_false]
          refine forall₂_replicate_map fun i _ => ?_
          have hAc : 0 < lastA - c := by linarith
          have hi : (0 : ℝ) ≤ (i : ℝ) / ((n : ℝ) - 1) :=
            div_nonneg (Nat.cast_nonneg i) (by linarith)
          nlinarith
      · have hA : ¬ lastA - c ≤ 0 := by
          push_neg at hB ⊢
          linarith
        simp only [hB, hA, if_false]
        refine forall₂_map_of_le _ fun i _ => ?_
        have hi : (0 : ℝ) ≤ (i : ℝ) / ((n : ℝ) - 1) :=
          div_nonneg (Nat.cast_nonneg i) (by linarith)
        nlinarith

/-- Pointwise-later access times give a pointwise-larger power-law sum. -/
lemma sum_terms_le (now d : ℝ) (hd : 0 ≤ d) {tsB tsA : List ℝ}
    (h : List.Forall₂ (· ≤ ·) tsB tsA) :
    (tsB.map fun t => safe_hours_since now t ^ (-d)).sum ≤
      (tsA.map fun t => safe_hours_since now t ^ (-d)).sum := by
  induction h with
  | nil => simp
  | @cons a b l₁ l₂ hab _ ih =>
    simp only [List.map_cons, List.sum_cons]
    have hterm : safe_hours_since now a ^ (-d) ≤ safe_hours_since now b ^ (-d) :=
      rpow_neg_anti (safe_hours_since_pos now b) (safe_hours_anti now hab) hd
    exact add_le_add hterm ih

/-- C8 counterexample: the activation score includes an independent Gaussian
draw per scored item (`random.gauss(0, 0.1)` at line 61).  With draws −1 for
item A and +1 for item B, item A (importance 0.6) scores below item B
(importance 0.5) even though the items are otherwise identical, so the
claimed inequality on `activation_score` fails on the code as stated. -/
theorem C8_counterexample :
    compute_activation 0 (some 0) (some 0) 1 (some 1) (some (6/10))
        (some (1/2)) (-1)
      < compute_activation 0 (some 0) (some 0) 1 (some 1) (some (5/10))
        (some (1/2)) 1 := by
  unfold compute_activation
  simp only [Option.getD_some]
  linarith

/-- C8 amended: for two memories identical except that A has strictly
greater importance and an equal-or-more-recent `last_accessed`, and with
equal noise draws (equivalently, on the deterministic part of the score),
A's activation score is at least B's. -/
theorem C8_monotone_equal_noise (now : ℝ) (created : Option ℝ)
    (lastA lastB : ℝ) (n : ℤ) (dr conf : Option ℝ) (impA impB noise : ℝ)
    (himp : impB < impA) (hlast : lastB ≤ lastA) :
    compute_activation now created (some lastB) n dr (some impB) conf noise ≤
      compute_activation now created (some lastA) n dr (some impA) conf noise := by
  unfold compute_activation
  have hd := clamp_decay_pos dr
  have hsum := sum_terms_le now (clamp_decay dr) hd.le
    (access_times_le now created hlast n)
  have hbase :
      base_level_of now (access_times now created (some lastB) n) (clamp_decay dr) ≤
      base_level_of now (access_times now created (some lastA) n) (clamp_decay dr) := by
    unfold base_level_of
    apply Real.log_le_log
      (lt_of_lt_of_le (by norm_num) (le_max_right _ _))
      (max_le_max hsum le_rfl)
  simp only [Option.getD_some]
  linarith

/-- Witness for C8's amended monotonicity at concrete inputs. -/
theorem C8_monotone_equal_noise_witness :
    ((5 : ℝ)/10 < 6/10 ∧ (0 : ℝ) ≤ 0) ∧
    compute_activation 0 (some 0) (some 0) 2 (some 1) (some (5/10))
        (some (1/2)) 0 ≤
      compute_activation 0 (some 0) (some 0) 2 (some 1) (some (6/10))
        (some (1/2)) 0 :=
  ⟨⟨by norm_num, le_refl 0⟩,
    C8_monotone_equal_noise 0 (some 0) 0 0 2 (some 1) (some (1/2)) (6/10)
      (5/10) 0 (by norm_num) (by norm_num)⟩

/-! ### State-machine helper lemmas -/

@[simp] lemma logAudit_cog (env : Env) (a b c : String) (db : DB) :
    (logAudit env a b c db).cog = db.cog := rfl

@[simp] lemma logAudit_persisted (env : Env) (a b c : String) (db : DB) :
    (logAudit env a b c db).persisted = db.persisted := rfl

@[simp] lemma updateCog_audit (db : DB) (f : CogRow → CogRow) :
    (updateCog db f).audit = db.audit := rfl

@[simp] lemma updateCog_persisted (db : DB) (f : CogRow → CogRow) :
    (updateCog db f).persisted = db.persisted := rfl

lemma s1_scan_text_cog (env : Env) (agent_id : String)
    (mock : Option String) (db : DB) :
    (s1_scan_text env agent_id mock db).2.cog = db.cog := by
  unfold s1_scan_text
  cases mock with
  | some m => rfl
  | none => cases env.s1Backend <;> rfl

lemma set_scan_status_cog (env : Env) (s : String) (db : DB) (st : CogRow)
    (h : db.cog = some st) :
    (set_scan_status env s db).cog =
      some { st with scan_status := s, updated_at := env.now } := by
  simp [set_scan_status, updateCog, h]

/-- C3: when the write-ahead log exists and exceeds 50 MB, the orchestrator
halts immediately: it returns `completed = false` with exit reason
`wal_too_large`, exactly one audit event (the WAL alert) is appended, and the
CognitiveState row is neither created nor mutated (nor is anything else
persisted). -/
theorem C3_wal_halt (env : Env) (agent_id : String) (mock_s1 : Option String)
    (db : DB) (hex : env.walExists = true) (hsz : env.walSizeMb > 50) :
    (run_cognitive_loop env agent_id mock_s1 db).result =
      ⟨false, "wal_too_large", false, false⟩
    ∧ (run_cognitive_loop env agent_id mock_s1 db).db.cog = db.cog
    ∧ (run_cognitive_loop env agent_id mock_s1 db).db.persisted = db.persisted
    ∧ ∃ e : AuditEvent, e.action = "cognitive_loop_wal_alert" ∧
        (run_cognitive_loop env agent_id mock_s1 db).db.audit =
          db.audit ++ [e] := by
  have hwal : check_wal_size env = (true, env.walSizeMb) := by
    unfold check_wal_size
    rw [hex]
    simp [hsz]
  unfold run_cognitive_loop
  rw [hwal]
  refine ⟨rfl, rfl, rfl,
    ⟨⟨env.now, agent_id, "cognitive_loop_wal_alert",
      "WAL file too large; cognitive loop HALTED"⟩, rfl, rfl⟩⟩

/-- Witness for C3 at a concrete environment and empty store. -/
theorem C3_wal_halt_witness :
    ((true : Bool) = true ∧ (51 : ℚ) > 50) ∧
    (run_cognitive_loop
        ⟨"t0", "2026-10-12", true, 51, .ok "NO: x", .ok "", fun _ => none,
          fun _ => ⟨false, false, [], []⟩, none, ""⟩
        "forge" none ⟨none, [], [], []⟩).result =
      ⟨false, "wal_too_large", false, false⟩ :=
  ⟨⟨rfl, by norm_num⟩,
    (C3_wal_halt
      ⟨"t0", "2026-10-12", true, 51, .ok "NO: x", .ok "", fun _ => none,
        fun _ => ⟨false, false, [], []⟩, none, ""⟩
      "forge" none ⟨none, [], [], []⟩ rfl (by norm_num)).1⟩

@[simp] lemma freshCogRow_scan_status (env : Env) :
    (freshCogRow env).scan_status = "idle" := rfl

/-- Whatever the `try` block did, the `finally` block guarantees the stored
status is not `running` on exit. -/
lemma finally_fix_not_running (env : Env) (db : DB) (st' : CogRow)
    (h : (finally_fix env db).cog = some st') : st'.scan_status ≠ "running" := by
  cases hdb : db.cog with
  | none =>
    have hf : finally_fix env db = db := by
      unfold finally_fix
      rw [hdb]
    rw [hf, hdb] at h
    cases h
  | some row =>
    by_cases hr : row.scan_status = "running"
    · have hf : finally_fix env db = set_scan_status env "idle" db := by
        unfold finally_fix
        rw [hdb]
        dsimp only
        rw [if_pos hr]
      rw [hf, set_scan_status_cog env _ db row hdb] at h
      injection h with h
      subst h
      show ("idle" : String) ≠ "running"
      decide
    · have hf : finally_fix env db = db := by
        unfold finally_fix
        rw [hdb]
        dsimp only
        rw [if_neg hr]
      rw [hf, hdb] at h
      injection h with h
      subst h
      exact hr

/-- A fixed benign environment used by concrete counterexamples and
witnesses: WAL absent, backends answer, no crash. -/
def envBase : Env :=
  ⟨"t0", "2026-10-12", false, 0, .ok "NO: all quiet", .ok "", fun _ => none,
    fun _ => ⟨false, false, [], []⟩, none, ""⟩

/-- A store whose `cognitive_state` row is stuck at `running` (for example
after a `kill -9` between `_set_scan_status` and the `finally` of a previous
invocation, or while a concurrent invocation is in flight). -/
def dbRunning : DB :=
  ⟨some ⟨"running", none, none, 0, none, "[]", none, "t", "t"⟩, [], [], []⟩

/-- C1 counterexample: from a pre-state whose `scan_status` is `running`, the
double-fire exit path returns `already_running` and leaves `scan_status`
still `running` after the invocation has exited, so the claim as stated (not
`running` after every exit path, the double-fire exit included) fails. -/
theorem C1_counterexample :
    (run_cognitive_loop envBase "forge" none dbRunning).result.exit_reason =
      "already_running"
    ∧ ((run_cognitive_loop envBase "forge" none dbRunning).db.cog.map
        fun st => st.scan_status) = some "running" :=
  ⟨rfl, rfl⟩

/-- C1 amended: for every invocation that starts from a state whose
`scan_status` is not `running` (equivalently, with no other invocation in
flight), every exit path — normal completion, cap-block, WAL halt, or an
unhandled exception — leaves `scan_status` ≠ `running`.  The double-fire and
WAL-halt paths leave the pre-existing status untouched; every path through
the `try` block ends in the unconditional `finally` reset. -/
theorem C1_not_running_after_exit (env : Env) (agent_id : String)
    (mock_s1 : Option String) (db : DB)
    (hpre : ∀ st, db.cog = some st → st.scan_status ≠ "running")
    (st' : CogRow)
    (hpost : (run_cognitive_loop env agent_id mock_s1 db).db.cog = some st') :
    st'.scan_status ≠ "running" := by
  unfold run_cognitive_loop at hpost
  dsimp only at hpost
  rcases hwal : check_wal_size env with ⟨big, mb⟩
  rw [hwal] at hpost
  dsimp only at hpost
  by_cases hb : big = true
  · subst hb
    rw [if_pos rfl] at hpost
    rw [logAudit_cog] at hpost
    exact hpre st' hpost
  · have hb' : big = false := by simpa using hb
    subst hb'
    rw [if_neg (by decide : ¬(false = true))] at hpost
    cases hdb : db.cog with
    | none =>
      simp only [get_or_create_cognitive_state, hdb, freshCogRow_scan_status,
        if_false, String.reduceEq] at hpost
      exact finally_fix_not_running env _ st' hpost
    | some st0 =>
      have h0 := hpre st0 hdb
      simp only [get_or_create_cognitive_state, hdb, h0, if_false] at hpost
      exact finally_fix_not_running env _ st' hpost

/-- Witness for C1's amended statement: a normal completed run from an idle
row ends with the status not `running`. -/
theorem C1_not_running_after_exit_witness :
    ∃ st', (run_cognitive_loop envBase "forge" none
        ⟨some ⟨"idle", none, none, 0, none, "[]", none, "t", "t"⟩, [], [],
          []⟩).db.cog = some st' ∧ st'.scan_status ≠ "running" := by
  refine ⟨_, rfl, ?_⟩
  exact C1_not_running_after_exit envBase "forge" none
    ⟨some ⟨"idle", none, none, 0, none, "[]", none, "t", "t"⟩, [], [], []⟩
    (by intro st hst; injection hst with hst; subst hst; decide) _ rfl

/-! ### Daily-cap lemmas for C2 -/

lemma s1_decide_capped (env : Env) (agent_id : String) (e : Bool) (r : String)
    (db : DB) (st : CogRow) (hrow : db.cog = some st)
    (hcnt : 2 ≤ st.system2_count_today)
    (hdate : st.system2_date = some env.today) :
    (s1_decide env agent_id e r db).1.escalated = false := by
  unfold s1_decide
  cases e with
  | false => rfl
  | true =>
    simp only [if_true, get_or_create_cognitive_state, hrow, hdate, ne_eq,
      not_true_eq_false, if_false, hcnt, if_pos]

lemma run_system1_scan_capped (env : Env) (agent_id : String)
    (mock : Option String) (db : DB) (st : CogRow) (hrow : db.cog = some st)
    (hcnt : 2 ≤ st.system2_count_today)
    (hdate : st.system2_date = some env.today) :
    (run_system1_scan env agent_id mock db).1.escalated = false := by
  unfold run_system1_scan
  simp only [get_or_create_cognitive_state, hrow]
  rcases htext : s1_scan_text env agent_id mock db with ⟨text, db2⟩
  have hcog2 : db2.cog = some st := by
    have h := s1_scan_text_cog env agent_id mock db
    rw [htext] at h
    rw [h, hrow]
  dsimp only
  rcases parse_yes_no text with ⟨e, r⟩
  exact s1_decide_capped env agent_id _ _ db2 st hcog2 hcnt hdate

lemma loop_try_capped (env : Env) (agent_id : String) (mock : Option String)
    (db : DB) (st : CogRow) (hrow : db.cog = some st)
    (hcnt : 2 ≤ st.system2_count_today)
    (hdate : st.system2_date = some env.today) :
    (loop_try env agent_id mock db).s2Invoked = false ∧
    (loop_try env agent_id mock db).result.system1_escalated = false := by
  unfold loop_try
  by_cases hc1 : env.crash = some CrashSite.duringS1
  · simp [hc1, crash_exit]
  · simp only [hc1, if_false]
    rcases hs1 : run_system1_scan env agent_id mock db with ⟨s1res, db2⟩
    have hesc : s1res.escalated = false := by
      have h := run_system1_scan_capped env agent_id mock db st hrow hcnt hdate
      rw [hs1] at h
      exact h
    dsimp only
    by_cases hc2 : env.crash = some CrashSite.afterS1
    · simp [hc2, crash_exit]
    · simp only [hc2, if_false, hesc, Bool.false_and, Bool.false_eq_true,
        if_false]
      by_cases hc3 : env.crash = some CrashSite.afterS2
      · simp [hc3, crash_exit]
      · simp [hc3]

/-- C2: for an agent whose stored state has `system2_count_today ≥ 2` with
`system2_date` equal to the current date, the next orchestrator run never
enters `run_system2_think` — regardless of the WAL state, of whether System 1
is mocked or answers YES or NO, and of crashes — and the returned result has
`system1_escalated = false`. -/
theorem C2_cap_blocks_system2 (env : Env) (agent_id : String)
    (mock_s1 : Option String) (db : DB) (st : CogRow)
    (hrow : db.cog = some st) (hcnt : 2 ≤ st.system2_count_today)
    (hdate : st.system2_date = some env.today) :
    (run_cognitive_loop env agent_id mock_s1 db).s2Invoked = false ∧
    (run_cognitive_loop env agent_id mock_s1 db).result.system1_escalated =
      false := by
  unfold run_cognitive_loop
  rcases hwal : check_wal_size env with ⟨big, mb⟩
  dsimp only
  by_cases hb : big = true
  · subst hb
    simp
  · have hb' : big = false := by simpa using hb
    subst hb'
    simp only [Bool.false_eq_true, if_false, get_or_create_cognitive_state,
      hrow]
    by_cases hr : st.scan_status = "running"
    · simp [hr]
    · simp only [hr, if_false]
      have hcog := set_scan_status_cog env "running" db st hrow
      have h := loop_try_capped env agent_id mock_s1
        (set_scan_status env "running" db)
        { st with scan_status := "running", updated_at := env.now }
        hcog hcnt hdate
      exact ⟨h.1, h.2⟩

/-- Witness for C2: a concrete capped row (count 2, today's date) with a
backend that answers YES. -/
theorem C2_cap_blocks_system2_witness :
    ((2 : ℕ) ≤ 2 ∧ (some "2026-10-12" : Option String) = some "2026-10-12") ∧
    ((run_cognitive_loop
        ⟨"t0", "2026-10-12", false, 0, .ok "YES: urgent work", .ok "",
          fun _ => none, fun _ => ⟨false, false, [], []⟩, none, ""⟩
        "forge" none
        ⟨some ⟨"idle", none, none, 2, some "2026-10-12", "[]", none, "t",
          "t"⟩, [], [], []⟩).s2Invoked = false ∧
      (run_cognitive_loop
        ⟨"t0", "2026-10-12", false, 0, .ok "YES: urgent work", .ok "",
          fun _ => none, fun _ => ⟨false, false, [], []⟩, none, ""⟩
        "forge" none
        ⟨some ⟨"idle", none, none, 2, some "2026-10-12", "[]", none, "t",
          "t"⟩, [], [], []⟩).result.system1_escalated = false) :=
  ⟨⟨by decide, rfl⟩,
    C2_cap_blocks_system2
      ⟨"t0", "2026-10-12", false, 0, .ok "YES: urgent work", .ok "",
        fun _ => none, fun _ => ⟨false, false, [], []⟩, none, ""⟩
      "forge" none
      ⟨some ⟨"idle", none, none, 2, some "2026-10-12", "[]", none, "t", "t"⟩,
        [], [], []⟩
      ⟨"idle", none, none, 2, some "2026-10-12", "[]", none, "t", "t"⟩
      rfl (by decide) rfl⟩

/-! ### Backend-failure fail-safety (C4) -/

/-- C4: every reasoning-backend failure fails safe.  (a) A System-1 backend
failure (timeout, non-zero exit, malformed or empty response — all raised as
one exception by `_call_ai`) is treated as a NO decision: no escalation and
`scan_status` idle.  (b) A System-2 backend-call failure resets `scan_status`
to `idle` and never increments `system2_count_today` (the count is unchanged
when `system2_date` is current, and merely holds the persisted new-day reset
value 0 otherwise). -/
theorem C4_backend_failure_fail_safe :
    (∀ (env : Env) (agent_id : String) (db : DB) (err : String),
      env.s1Backend = .failure err →
      (run_system1_scan env agent_id none db).1.escalated = false ∧
      (run_system1_scan env agent_id none db).1.status = "idle")
    ∧
    (∀ (env : Env) (agent_id reason : String) (db : DB) (st : CogRow)
        (err : String),
      env.s2Backend = .failure err →
      db.cog = some st →
      (st.system2_date = some env.today → st.system2_count_today < 2) →
      (run_system2_think env agent_id reason none db).1.success = false ∧
      ∃ st', (run_system2_think env agent_id reason none db).2.cog = some st' ∧
        st'.scan_status = "idle" ∧
        st'.system2_count_today =
          (if st.system2_date = some env.today then st.system2_count_today
           else 0)) := by
  constructor
  · intro env agent_id db err henv
    unfold run_system1_scan
    rcases hg : get_or_create_cognitive_state env db with ⟨state0, db1⟩
    dsimp only
    have htext : s1_scan_text env agent_id none db1 =
        ("NO: API call failed, safe fallback to idle",
         logAudit env agent_id "system1_scan_error" ("AI call failed: " ++ err)
           db1) := by
      unfold s1_scan_text
      rw [henv]
    rw [htext]
    dsimp only
    have hparse : parse_yes_no "NO: API call failed, safe fallback to idle" =
        (false, "API call failed, safe fallback to idle") := by decide
    rw [hparse]
    dsimp only
    unfold s1_decide s1_finish
    dsimp only
    exact ⟨rfl, rfl⟩
  · intro env agent_id reason db st err henv hrow hcap
    unfold run_system2_think
    by_cases hdate : st.system2_date = some env.today
    · have hcnt := hcap hdate
      have hcheck : check_daily_cap env db =
          (false, st.system2_count_today, db) := by
        unfold check_daily_cap
        rw [hrow]
        dsimp only
        rw [if_neg (by simp [hdate])]
        have hdec : decide (st.system2_count_today ≥ 2) = false :=
          decide_eq_false (by omega)
        rw [hdec]
      rw [hcheck]
      dsimp only
      rw [if_neg (by decide : ¬(false = true)), henv]
      dsimp only
      refine ⟨rfl, ⟨{ st with scan_status := "idle", updated_at := env.now },
        ?_, rfl, ?_⟩⟩
      · show (updateCog (logAudit env agent_id "system2_think_error"
            ("API call failed: " ++ err) db) _).cog = _
        simp [updateCog, hrow]
      · dsimp only
        rw [if_pos hdate]
    · have hcheck : check_daily_cap env db = (false, 0, updateCog db fun s =>
          { s with system2_count_today := 0, system2_date := some env.today,
                   updated_at := env.now }) := by
        unfold check_daily_cap
        rw [hrow]
        dsimp only
        rw [if_pos (by simp [hdate])]
      rw [hcheck]
      dsimp only
      rw [if_neg (by decide : ¬(false = true)), henv]
      dsimp only
      refine ⟨rfl,
        ⟨{ st with
            system2_count_today := 0
            system2_date := some env.today
            updated_at := env.now
            scan_status := "idle" }, ?_, rfl, ?_⟩⟩
      · show (updateCog (logAudit env agent_id "system2_think_error"
            ("API call failed: " ++ err) (updateCog db _)) _).cog = _
        simp [updateCog, hrow]
      · dsimp only
        rw [if_neg hdate]

/-- Concrete environment with both backends failing. -/
def envFail : Env :=
  ⟨"t0", "2026-10-12", false, 0, .failure "boom", .failure "boom",
    fun _ => none, fun _ => ⟨false, false, [], []⟩, none, ""⟩

/-- Concrete store with one idle row, count 1 on today's date. -/
def dbCount1 : DB :=
  ⟨some ⟨"escalated", none, none, 1, some "2026-10-12", "[]", none, "t", "t"⟩,
    [], [], []⟩

/-- Witness for C4 at a concrete failing environment. -/
theorem C4_backend_failure_fail_safe_witness :
    (envFail.s1Backend = .failure "boom" ∧
      envFail.s2Backend = .failure "boom" ∧
      (∀ _h : (some "2026-10-12" : Option String) = some envFail.today,
        (1 : ℕ) < 2)) ∧
    ((run_system1_scan envFail "forge" none dbCount1).1.escalated = false ∧
      (run_system1_scan envFail "forge" none dbCount1).1.status = "idle") ∧
    ((run_system2_think envFail "forge" "r" none dbCount1).1.success = false ∧
      ∃ st', (run_system2_think envFail "forge" "r" none dbCount1).2.cog =
          some st' ∧
        st'.scan_status = "idle" ∧
        st'.system2_count_today =
          (if (some "2026-10-12" : Option String) = some envFail.today
           then 1 else 0)) :=
  ⟨⟨rfl, rfl, fun _ => by decide⟩,
    C4_backend_failure_fail_safe.1 envFail "forge" dbCount1 "boom" rfl,
    C4_backend_failure_fail_safe.2 envFail "forge" "r" dbCount1
      ⟨"escalated", none, none, 1, some "2026-10-12", "[]", none, "t", "t"⟩
      "boom" rfl rfl (fun _ => by decide)⟩

/-! ### Persisted field-length limits (C7) -/

lemma pyLen_pySlice_le (s : String) (n : ℕ) : pyLen (pySlice s n) ≤ n := by
  simp only [pyLen, pySlice]
  rw [List.length_take]
  exact min_le_left n s.data.length

/-- `post_proposal` either persists nothing (a guard or the validator blocked
it) or appends exactly the proposal row built from its arguments. -/
lemma post_proposal_persisted (env : Env) (agent title content : String)
    (evidence : List String) (db : DB) :
    (post_proposal env agent title content evidence db).2.persisted =
      db.persisted ∨
    (post_proposal env agent title content evidence db).2.persisted =
      db.persisted ++ [.proposal agent title content evidence
        ((env.validate (title ++ "\n\n" ++ content)).requires_review ||
          evidence.isEmpty)] := by
  unfold post_proposal
  by_cases h1 : PROTECTED_AGENT_IDS.contains (pyLower agent) = true
  · rw [if_pos h1]
    exact Or.inl rfl
  · rw [if_neg h1]
    by_cases h2 : pyLen content > 2000
    · rw [if_pos h2]
      exact Or.inl rfl
    · rw [if_neg h2]
      by_cases h3 : pyLen title > 200
      · rw [if_pos h3]
        exact Or.inl rfl
      · rw [if_neg h3]
        dsimp only
        by_cases h4 : (env.validate (title ++ "\n\n" ++ content)).blocked = true
        · rw [if_pos h4]
          exact Or.inl rfl
        · rw [if_neg h4]
          exact Or.inr rfl

/-- C7 amended: every record the System-2 routing persists respects the
limits the code actually enforces — proposal title at most 200 characters
and content at most 2000 (route truncation, re-checked by `post_proposal`),
belief content between 10 and 500 characters with 500-character caps on its
annotation fields, knowledge-gap domain at most 50 and description at most
500 characters.  The 100/300/200 limits of the claim appear only in the
prompt text sent to the model; they are not enforced at persistence. -/
theorem C7_persisted_within_enforced_limits (env : Env) (agent_id : String)
    (a : ActionJson) (db : DB) (p : Persisted)
    (hp : p ∈ (route_output env agent_id a db).2.persisted)
    (hnew : p ∉ db.persisted) :
    (match p with
     | .proposal _ title content _ _ =>
         pyLen title ≤ 200 ∧ pyLen content ≤ 2000
     | .belief _ content _ _ _ ai ef ea =>
         10 ≤ pyLen content ∧ pyLen content ≤ 500 ∧ pyLen ai ≤ 500 ∧
           pyLen ef ≤ 500 ∧ pyLen ea ≤ 500
     | .gap _ domain description _ =>
         pyLen domain ≤ 50 ∧ pyLen description ≤ 500) := by
  unfold route_output at hp
  dsimp only at hp
  by_cases h1 : pyLower a.type = "proposal"
  · rw [if_pos h1] at hp
    dsimp only at hp
    rcases post_proposal_persisted env agent_id
        (pySlice (a.title.getD "System 2 proposal") 200)
        (pySlice (a.content.getD "") 2000) a.evidence db with h | h
    · rw [h] at hp
      exact absurd hp hnew
    · rw [h] at hp
      rcases List.mem_append.mp hp with h2 | h2
      · exact absurd h2 hnew
      · rw [List.mem_singleton] at h2
        subst h2
        exact ⟨pyLen_pySlice_le _ _, pyLen_pySlice_le _ _⟩
  · rw [if_neg h1] at hp
    by_cases h2 : pyLower a.type = "belief_update"
    · rw [if_pos h2] at hp
      dsimp only at hp
      unfold update_beliefs at hp
      rw [logAudit_persisted] at hp
      simp only [List.foldl_cons, List.foldl_nil] at hp
      unfold store_belief_update at hp
      dsimp only at hp
      by_cases hg : (pyTrimWs ((a.belief.getD BeliefJson.empty).content.getD "")
            = "" ∨
          pyLen (pyTrimWs ((a.belief.getD BeliefJson.empty).content.getD ""))
            < 10 ∨
          pyLen (pyTrimWs ((a.belief.getD BeliefJson.empty).content.getD ""))
            > 500)
      · rw [if_pos hg] at hp
        exact absurd hp hnew
      · rw [if_neg hg] at hp
        dsimp only at hp
        rcases List.mem_append.mp hp with h3 | h3
        · exact absurd h3 hnew
        · rw [List.mem_singleton] at h3
          subst h3
          push_neg at hg
          exact ⟨by omega, by omega, pyLen_pySlice_le _ _,
            pyLen_pySlice_le _ _, pyLen_pySlice_le _ _⟩
    · rw [if_neg h2] at hp
      by_cases h3 : pyLower a.type = "knowledge_gap"
      · rw [if_pos h3] at hp
        dsimp only at hp
        rcases List.mem_append.mp hp with h4 | h4
        · exact absurd h4 hnew
        · rw [List.mem_singleton] at h4
          subst h4
          exact ⟨pyLen_pySlice_le _ _, pyLen_pySlice_le _ _⟩
      · rw [if_neg h3] at hp
        exact absurd hp hnew

/-- A 150-character title: over the claimed 100-character limit, under the
enforced 200-character truncation. -/
def longTitle : String := String.mk (List.replicate 150 'a')

/-- A System-2 proposal action whose title is 150 characters long. -/
def actOverLimit : ActionJson :=
  { type := "proposal", title := some longTitle, content := some "short body",
    evidence := [], belief := none, domain := none, description := none,
    importance := none }

set_option maxRecDepth 40000 in
/-- C7 counterexample: the routing persists a proposal whose title is 150
characters long, exceeding the claimed 100-character limit (the code only
truncates at 200/2000/500, and the 100/300/200 figures live solely in the
prompt text). -/
theorem C7_counterexample :
    100 < pyLen longTitle ∧
    (route_output envBase "forge" actOverLimit ⟨none, [], [], []⟩).2.persisted =
      [Persisted.proposal "forge" longTitle "short body" [] true] := by
  constructor
  · decide
  · rfl

set_option maxRecDepth 40000 in
/-- Witness for C7's amended statement: the persisted 150-character-title
proposal satisfies the enforced 200/2000 limits. -/
theorem C7_persisted_within_enforced_limits_witness :
    (Persisted.proposal "forge" longTitle "short body" [] true ∈
        (route_output envBase "forge" actOverLimit
          ⟨none, [], [], []⟩).2.persisted ∧
      Persisted.proposal "forge" longTitle "short body" [] true ∉
        ([] : List Persisted)) ∧
    pyLen longTitle ≤ 200 ∧ pyLen "short body" ≤ 2000 :=
  ⟨⟨by
      show Persisted.proposal "forge" longTitle "short body" [] true ∈
        [Persisted.proposal "forge" longTitle "short body" [] true]
      exact List.mem_singleton.mpr rfl,
      List.not_mem_nil _⟩,
    C7_persisted_within_enforced_limits envBase "forge" actOverLimit
      ⟨none, [], [], []⟩ (.proposal "forge" longTitle "short body" [] true)
      (by
        show Persisted.proposal "forge" longTitle "short body" [] true ∈
          [Persisted.proposal "forge" longTitle "short body" [] true]
        exact List.mem_singleton.mpr rfl)
      (List.not_mem_nil _)⟩

end OpenclawBee
